import Mathlib

/-!
Shallow embedding of the generation-workflow controller of `src/App.tsx`
(a single-page client around a remote video-generation service).

The React component state becomes an explicit `AppState`; the external
collaborators (the generation service, the media fetch, the hosting
environment's credential query, `URL.createObjectURL`) become an `Env`
oracle; every outward call is recorded in a list of `Event`s so that
claims about "no service call" or "no media fetch" are statements about
the trace.  The unbounded poll loop consumes a list of poll responses
supplied by the oracle and returns `none` when that list is exhausted
without the job reporting `done`, modelling a run that never terminates.
-/

/-- A selected local file: MIME type plus raw byte content (each byte a `Nat < 256`;
the embedding never needs the bound). -/
structure FileData where
  mimeType : String
  bytes : List Nat
deriving DecidableEq

/-- The `referenceImage` state field of `App.tsx`: `{ file, previewUrl, base64 }`,
each nullable. -/
structure RefImage where
  file : Option FileData
  previewUrl : Option String
  base64 : Option String
deriving DecidableEq

/-- The innermost `video` object of a poll response; its `uri` may be absent. -/
structure VideoRef where
  uri : Option String
deriving DecidableEq

/-- One entry of `response.generatedVideos`; its `video` may be absent. -/
structure GeneratedVideo where
  video : Option VideoRef
deriving DecidableEq

/-- A long-running operation as returned by `generateVideos` /
`getVideosOperation`: a `done` flag and an optional response holding
`generatedVideos`. -/
structure Operation where
  done : Bool
  response : Option (List GeneratedVideo)
deriving DecidableEq

/-- The optional chain `operation.response?.generatedVideos?.[0]?.video?.uri`
of `App.tsx` line 157. -/
def downloadLinkOf (op : Operation) : Option String :=
  op.response.bind (fun vids =>
    (vids.get? 0).bind (fun gv => gv.video.bind (fun v => v.uri)))

/-- The `image` part of the payload: `{ imageBytes, mimeType }`. -/
structure ImagePayload where
  imageBytes : String
  mimeType : String
deriving DecidableEq

/-- The payload handed to `ai.models.generateVideos` (lines 133-148). -/
structure Payload where
  model : String
  prompt : String
  numberOfVideos : Nat
  resolution : String
  aspectRatio : String
  image : Option ImagePayload
deriving DecidableEq

/-- The response of the media fetch (line 163): HTTP success flag, status
message, and the object URL the blob would yield via `URL.createObjectURL`. -/
structure FetchResponse where
  ok : Bool
  statusText : String
  blobUrl : String
deriving DecidableEq

deriving instance DecidableEq for Except

/-- Oracle for every external collaborator touched by one generation attempt:
the submission result, the successive poll responses (a thrown error is
`Except.error` with the error's message), the media-fetch result, and the
ambient `process.env.API_KEY`. -/
structure Env where
  apiKey : String
  submitResult : Except String Operation
  polls : List (Except String Operation)
  fetchResult : Except String FetchResponse

/-- One outward-visible action of the controller. -/
inductive Event where
  | submitCall : Payload → Event
  | delay : Nat → Event
  | pollCall : Event
  | fetchCall : String → Event
  | apiKeyQuery : Event
  | revoke : String → Event
deriving DecidableEq

def isSubmitEv : Event → Bool
  | Event.submitCall _ => true
  | _ => false

def isFetchEv : Event → Bool
  | Event.fetchCall _ => true
  | _ => false

def isApiKeyQuery : Event → Bool
  | Event.apiKeyQuery => true
  | _ => false

def countSubmit (evs : List Event) : Nat := (evs.filter isSubmitEv).length

def countFetch (evs : List Event) : Nat := (evs.filter isFetchEv).length

/-- The React component state of `App.tsx` (lines 42-50); aspect ratio and
resolution are carried as the strings the source stores. -/
structure AppState where
  hasApiKey : Bool
  prompt : String
  referenceImage : RefImage
  aspectRatio : String
  resolution : String
  isLoading : Bool
  loadingMessage : String
  generatedVideoUrl : Option String
  error : Option String
deriving DecidableEq

/-- The `LOADING_MESSAGES` array (lines 21-29). -/
def loadingMessages : List String :=
  ["Summoning digital muses...",
   "Warming up the pixels...",
   "Choreographing the frames...",
   "This might take a few minutes. Great art needs patience!",
   "Rendering cinematic magic...",
   "Almost there, polishing the final cut...",
   "Consulting with the AI director..."]

/-- The `useState` initial values (lines 42-50). -/
def initialState : AppState :=
  { hasApiKey := false,
    prompt := "A neon hologram of a cat driving a sports car at top speed on a rainy night in a futuristic city",
    referenceImage := { file := none, previewUrl := none, base64 := none },
    aspectRatio := "16:9",
    resolution := "1080p",
    isLoading := false,
    loadingMessage := loadingMessages.getD 0 "",
    generatedVideoUrl := none,
    error := none }

/-- JS `Array.prototype.split(',')` on a character list: `splitComma []`
is `[[]]` just as `"".split(',')` is `[""]`. -/
def splitComma : List Char → List (List Char)
  | [] => [[]]
  | c :: t =>
    if c = ',' then [] :: splitComma t
    else
      match splitComma t with
      | [] => [[c]]
      | h :: r => (c :: h) :: r

/-- Here `leadsWith pat l` is true when `pat` is an initial segment of `l`. -/
def leadsWith : List Char → List Char → Bool
  | [], _ => true
  | _ :: _, [] => false
  | a :: s, b :: t => a == b && leadsWith s t

/-- Here `hasSub sub l` is true when some suffix of `l` starts with `sub`. -/
def hasSub (sub : List Char) : List Char → Bool
  | [] => leadsWith sub []
  | c :: t => leadsWith sub (c :: t) || hasSub sub t

/-- JS `String.prototype.includes(sub)` on `hay`. -/
def strContains (hay sub : String) : Bool := hasSub sub.data hay.data

/-- The standard base64 alphabet. -/
def base64Alphabet : List Char :=
  "ABCDEFGHIJKLMNOPQRSTUVWXYZabcdefghijklmnopqrstuvwxyz0123456789+/".data

def b64Char (n : Nat) : Char := base64Alphabet.getD n 'A'

/-- Standard base64 of a byte list (the encoding the browser applies when
producing a `data:` URL for `FileReader.readAsDataURL`). -/
def base64Encode : List Nat → List Char
  | [] => []
  | [a] => [b64Char (a / 4), b64Char (a % 4 * 16), '=', '=']
  | [a, b] => [b64Char (a / 4), b64Char (a % 4 * 16 + b / 16), b64Char (b % 16 * 4), '=']
  | a :: b :: c :: rest =>
    b64Char (a / 4) :: b64Char (a % 4 * 16 + b / 16) ::
      b64Char (b % 16 * 4 + c / 64) :: b64Char (c % 64) :: base64Encode rest

/-- Modelled from the spec: the browser's `FileReader.readAsDataURL`, an
external collaborator not in `src/` — "Converting a selected local file to a
transmittable byte encoding is a pure, stateless transform" (§4.2).  It yields
`data:<mime>;base64,<base64 bytes>`. -/
def dataUrlChars (f : FileData) : List Char :=
  "data:".data ++ f.mimeType.data ++ ";base64,".data ++ base64Encode f.bytes

def readAsDataURL (f : FileData) : String := String.mk (dataUrlChars f)

/-- The `fileToBase64` helper (lines 6-19): reads the file as a data URL and returns
`result.split(',')[1]`; `none` models the JS `undefined` when index 1 of the
split does not exist. -/
def fileToBase64 (f : FileData) : Option String :=
  ((splitComma (readAsDataURL f).data).get? 1).map String.mk

/-- The `handleImageChange` handler (lines 103-113): when a file is selected, revoke the
previous preview URL if truthy, create a preview URL for the file (supplied by
the oracle as `newUrl`), compute the base64 payload, and store all three. -/
def handleImageChange (f : Option FileData) (newUrl : String) (st : AppState) :
    List Event × AppState :=
  match f with
  | none => ([], st)
  | some file =>
    let evs :=
      match st.referenceImage.previewUrl with
      | some u => if u = "" then [] else [Event.revoke u]
      | none => []
    (evs, { st with referenceImage :=
      { file := some file, previewUrl := some newUrl, base64 := fileToBase64 file } })

/-- The `removeImage` handler (lines 115-120): revoke the preview URL if truthy, then
clear all three image fields. -/
def removeImage (st : AppState) : List Event × AppState :=
  let evs :=
    match st.referenceImage.previewUrl with
    | some u => if u = "" then [] else [Event.revoke u]
    | none => []
  (evs, { st with referenceImage := { file := none, previewUrl := none, base64 := none } })

/-- The `checkApiKey` callback (lines 54-65): query the hosting environment when
`window.aistudio` exists (`q = none` models its absence, `Except.error` a
thrown query); any failure leaves the flag false. -/
def checkApiKey (q : Option (Except String Bool)) (st : AppState) :
    List Event × AppState :=
  match q with
  | none => ([], { st with hasApiKey := false })
  | some (Except.ok b) => ([Event.apiKeyQuery], { st with hasApiKey := b })
  | some (Except.error _) => ([Event.apiKeyQuery], { st with hasApiKey := false })

/-- Startup: the mount effect (lines 67-69) runs `checkApiKey` once on the
initial state. -/
def mount (q : Option (Except String Bool)) : List Event × AppState :=
  checkApiKey q initialState

def notFoundSub : String := "Requested entity was not found."

def credInvalidMsg : String :=
  "Your API key is invalid or not found. Please select a valid key and try again."

def noLinkMsg : String := "Video generation succeeded but no download link was found."

def unknownErrMsg : String := "An unknown error occurred."

def fetchFailMsg (statusText : String) : String :=
  "Failed to fetch video data: " ++ statusText

/-- JS `String.prototype.trim()` as used on line 123: strip leading and
trailing whitespace (modelled at character level so that runs evaluate;
`String.trim` of the core library is extensionally the same but is defined by
well-founded recursion). -/
def jsTrim (s : String) : String :=
  String.mk (((s.data.dropWhile Char.isWhitespace).reverse.dropWhile
    Char.isWhitespace).reverse)

/-- The state updates performed before any work (lines 125-128). -/
def clearedState (st : AppState) : AppState :=
  { st with isLoading := true, error := none, generatedVideoUrl := none,
            loadingMessage := loadingMessages.getD 0 "" }

/-- The payload construction (lines 133-148); the `image` field is attached
only when `referenceImage.base64 && referenceImage.file` is truthy, so a
null or empty base64 string omits it. -/
def buildPayload (st : AppState) : Payload :=
  { model := "veo-3.1-fast-generate-preview",
    prompt := st.prompt,
    numberOfVideos := 1,
    resolution := st.resolution,
    aspectRatio := st.aspectRatio,
    image :=
      match st.referenceImage.base64, st.referenceImage.file with
      | some b, some f => if b = "" then none else some { imageBytes := b, mimeType := f.mimeType }
      | _, _ => none }

/-- The `while (!operation.done)` loop (lines 152-155): each iteration awaits
a fixed 10000 ms timeout and then re-fetches the operation; a response list
exhausted with the job still not done yields `none` (the run would poll
forever). -/
def pollLoop : Operation → List (Except String Operation) →
    List Event × Option (Except String Operation)
  | op, polls =>
    if op.done = true then ([], some (Except.ok op))
    else
      match polls with
      | [] => ([], none)
      | Except.error e :: _ =>
        ([Event.delay 10000, Event.pollCall], some (Except.error e))
      | Except.ok op2 :: rest =>
        let r := pollLoop op2 rest
        (Event.delay 10000 :: Event.pollCall :: r.1, r.2)

/-- The body of the `try` block (lines 130-170): submit, poll, check the
download link (line 159 throws when it is null or empty), fetch the media
(line 163, non-ok throws with the status text), and produce the object URL of
the blob on success. -/
def generateCore (env : Env) (payload : Payload) :
    List Event × Option (Except String String) :=
  match env.submitResult with
  | Except.error e => ([Event.submitCall payload], some (Except.error e))
  | Except.ok op =>
    match (pollLoop op env.polls).2 with
    | none => (Event.submitCall payload :: (pollLoop op env.polls).1, none)
    | some (Except.error e) =>
      (Event.submitCall payload :: (pollLoop op env.polls).1, some (Except.error e))
    | some (Except.ok finalOp) =>
      match downloadLinkOf finalOp with
      | none =>
        (Event.submitCall payload :: (pollLoop op env.polls).1,
         some (Except.error noLinkMsg))
      | some uri =>
        if uri = "" then
          (Event.submitCall payload :: (pollLoop op env.polls).1,
           some (Except.error noLinkMsg))
        else
          match env.fetchResult with
          | Except.error e =>
            (Event.submitCall payload :: (pollLoop op env.polls).1 ++
               [Event.fetchCall (uri ++ "&key=" ++ env.apiKey)],
             some (Except.error e))
          | Except.ok r =>
            if r.ok then
              (Event.submitCall payload :: (pollLoop op env.polls).1 ++
                 [Event.fetchCall (uri ++ "&key=" ++ env.apiKey)],
               some (Except.ok r.blobUrl))
            else
              (Event.submitCall payload :: (pollLoop op env.polls).1 ++
                 [Event.fetchCall (uri ++ "&key=" ++ env.apiKey)],
               some (Except.error (fetchFailMsg r.statusText)))

/-- The `catch` block (lines 172-179): fall back to a generic message when the
raised message is empty, remap the entity-not-found message to the
credential-invalid one (also dropping the cached flag), and surface it. -/
def applyCatch (st1 : AppState) (e : String) : AppState :=
  let m := if e = "" then unknownErrMsg else e
  if strContains m notFoundSub then
    { st1 with error := some credInvalidMsg, hasApiKey := false }
  else
    { st1 with error := some m }

/-- The `handleGenerateVideo` handler (lines 122-183): guard, clear, run the attempt, and
apply the success / catch / finally updates.  A `none` second component is a
run whose poll loop never terminates (the `finally` never runs). -/
def handleGenerateVideo (env : Env) (st : AppState) : List Event × Option AppState :=
  if jsTrim st.prompt = "" ∨ st.isLoading = true then ([], some st)
  else
    match (generateCore env (buildPayload (clearedState st))).2 with
    | none => ((generateCore env (buildPayload (clearedState st))).1, none)
    | some (Except.ok url) =>
      ((generateCore env (buildPayload (clearedState st))).1,
       some { clearedState st with generatedVideoUrl := some url, isLoading := false })
    | some (Except.error e) =>
      ((generateCore env (buildPayload (clearedState st))).1,
       some { applyCatch (clearedState st) e with isLoading := false })

/-! ## Helper lemmas about the poll loop and event traces -/

theorem pollLoop_done (op : Operation) (polls : List (Except String Operation))
    (h : op.done = true) : pollLoop op polls = ([], some (Except.ok op)) := by
  unfold pollLoop
  simp [h]

theorem pollLoop_events (op : Operation) (polls : List (Except String Operation)) :
    ∀ e ∈ (pollLoop op polls).1, e = Event.delay 10000 ∨ e = Event.pollCall := by
  induction polls generalizing op with
  | nil =>
    intro e he
    unfold pollLoop at he
    by_cases h : op.done = true <;> simp [h] at he
  | cons p rest ih =>
    intro e he
    unfold pollLoop at he
    by_cases h : op.done = true
    · simp [h] at he
    · cases p with
      | error msg =>
        simp [h] at he
        rcases he with he | he <;> simp [he]
      | ok op2 =>
        simp [h] at he
        rcases he with he | he | he
        · exact Or.inl he
        · exact Or.inr he
        · exact ih op2 e he

theorem pollLoop_filter (op : Operation) (polls : List (Except String Operation)) :
    ((pollLoop op polls).1.filter isSubmitEv) = [] ∧
    ((pollLoop op polls).1.filter isFetchEv) = [] ∧
    ((pollLoop op polls).1.filter isApiKeyQuery) = [] := by
  refine ⟨?_, ?_, ?_⟩ <;>
    · rw [List.filter_eq_nil_iff]
      intro e he
      rcases pollLoop_events op polls e he with h | h <;>
        subst h <;> simp [isSubmitEv, isFetchEv, isApiKeyQuery]

theorem pollLoop_ok_done (op' : Operation) :
    ∀ (op : Operation) (polls : List (Except String Operation)),
      (pollLoop op polls).2 = some (Except.ok op') → op'.done = true := by
  intro op polls
  induction polls generalizing op with
  | nil =>
    intro h
    unfold pollLoop at h
    by_cases hd : op.done = true
    · simp [hd] at h
      subst h
      exact hd
    · simp [hd] at h
  | cons p rest ih =>
    intro h
    unfold pollLoop at h
    by_cases hd : op.done = true
    · simp [hd] at h
      subst h
      exact hd
    · cases p with
      | error msg => simp [hd] at h
      | ok op2 =>
        simp [hd] at h
        exact ih op2 h

/-- The events of `n` poll-loop iterations: each one a fixed 10000 ms delay
followed by a status re-fetch. -/
def iterEvents : Nat → List Event
  | 0 => []
  | n + 1 => Event.delay 10000 :: Event.pollCall :: iterEvents n

/-- A poll response that succeeded but still reports the job as not done. -/
def notDoneOk : Except String Operation → Bool
  | Except.ok op => !op.done
  | Except.error _ => false

theorem pollLoop_all_not_done (polls : List (Except String Operation)) :
    ∀ (op : Operation), op.done = false → (∀ p ∈ polls, notDoneOk p = true) →
      pollLoop op polls = (iterEvents polls.length, none) := by
  induction polls with
  | nil =>
    intro op hop _
    unfold pollLoop
    simp [hop, iterEvents]
  | cons p rest ih =>
    intro op hop hall
    have hp := hall p (List.mem_cons_self p rest)
    cases p with
    | error msg => simp [notDoneOk] at hp
    | ok op2 =>
      have hop2 : op2.done = false := by
        simpa [notDoneOk] using hp
      unfold pollLoop
      simp only [hop, Bool.false_eq_true, if_false]
      rw [ih op2 hop2 (fun q hq => hall q (List.mem_cons_of_mem _ hq))]
      simp [iterEvents]

theorem pollLoop_first_done (last : Operation) (rest : List (Except String Operation)) :
    ∀ (pre : List Operation) (op : Operation), op.done = false →
      (∀ o ∈ pre, o.done = false) → last.done = true →
      pollLoop op (pre.map Except.ok ++ Except.ok last :: rest) =
        (iterEvents (pre.length + 1), some (Except.ok last)) := by
  intro pre
  induction pre with
  | nil =>
    intro op hop _ hlast
    unfold pollLoop
    simp only [hop, Bool.false_eq_true, if_false, List.map_nil, List.nil_append]
    rw [pollLoop_done last rest hlast]
    simp [iterEvents]
  | cons o pre' ih =>
    intro op hop hall hlast
    have ho : o.done = false := hall o (List.mem_cons_self o pre')
    unfold pollLoop
    simp only [hop, Bool.false_eq_true, if_false, List.map_cons, List.cons_append]
    rw [ih o ho (fun q hq => hall q (List.mem_cons_of_mem o hq)) hlast]
    simp [iterEvents]

theorem generateCore_shape (env : Env) (p : Payload) :
    countSubmit (generateCore env p).1 = 1 ∧
    countFetch (generateCore env p).1 ≤ 1 ∧
    ((generateCore env p).1.filter isApiKeyQuery) = [] := by
  unfold generateCore
  cases hs : env.submitResult with
  | error e =>
    simp [countSubmit, countFetch, isSubmitEv, isFetchEv, isApiKeyQuery]
  | ok op =>
    obtain ⟨h1, h2, h3⟩ := pollLoop_filter op env.polls
    cases hp : (pollLoop op env.polls).2 with
    | none =>
      simp [hp, countSubmit, countFetch, List.filter_cons, isSubmitEv, isFetchEv,
        isApiKeyQuery, h1, h2, h3]
    | some res =>
      cases res with
      | error e =>
        simp [hp, countSubmit, countFetch, List.filter_cons, isSubmitEv, isFetchEv,
          isApiKeyQuery, h1, h2, h3]
      | ok finalOp =>
        cases hd : downloadLinkOf finalOp with
        | none =>
          simp [hp, hd, countSubmit, countFetch, List.filter_cons, isSubmitEv, isFetchEv,
            isApiKeyQuery, h1, h2, h3]
        | some uri =>
          by_cases hu : uri = ""
          · simp [hp, hd, hu, countSubmit, countFetch, List.filter_cons, isSubmitEv,
              isFetchEv, isApiKeyQuery, h1, h2, h3]
          · cases hf : env.fetchResult with
            | error e =>
              simp [hp, hd, hf, hu, countSubmit, countFetch, List.filter_cons,
                List.filter_append, isSubmitEv, isFetchEv, isApiKeyQuery, h1, h2, h3]
            | ok r =>
              by_cases hr : r.ok = true <;>
                simp [hp, hd, hf, hu, hr, countSubmit, countFetch, List.filter_cons,
                  List.filter_append, isSubmitEv, isFetchEv, isApiKeyQuery, h1, h2, h3]

/-! ## Concrete objects used by witnesses and counterexamples -/

def envA : Env :=
  { apiKey := "", submitResult := Except.error "e", polls := [],
    fetchResult := Except.error "e" }

def stLoading : AppState := { initialState with isLoading := true }

def opNotDone : Operation := { done := false, response := none }

def opDone : Operation := { done := true, response := none }

/-! ## Claims -/

/-- Claim C1: whenever a job is in flight (`isLoading` is true) or the prompt
trims to the empty string, calling the submit operation performs no external
call (empty event trace) and leaves the entire state unchanged, so at most one
job is ever in flight per controller instance. -/
theorem C1_submit_guard_noop (env : Env) (st : AppState)
    (h : st.isLoading = true ∨ jsTrim st.prompt = "") :
    handleGenerateVideo env st = ([], some st) := by
  unfold handleGenerateVideo
  rcases h with h | h <;> simp [h]

/-- Witness for C1 at a concrete in-flight state. -/
theorem C1_submit_guard_noop_witness :
    (stLoading.isLoading = true ∨ jsTrim stLoading.prompt = "") ∧
    handleGenerateVideo envA stLoading = ([], some stLoading) :=
  ⟨Or.inl rfl, C1_submit_guard_noop envA stLoading (Or.inl rfl)⟩

/-- Claim C5: the poll loop returns at once when the initial response is
already done; while every response reports done = false it keeps iterating
with no upper bound (for a response list of any length, exhausting it with the
job not done leaves the loop still running, modelled by `none`), each
iteration being a fixed 10000 ms delay followed by a status re-fetch; it
terminates with a job exactly when some response (or the initial one) reports
done = true; and a run whose poll loop never finishes produces no final state. -/
theorem C5_poll_loop_unbounded :
    (∀ (init : Operation) (polls : List (Except String Operation)),
       init.done = true → pollLoop init polls = ([], some (Except.ok init))) ∧
    (∀ (init : Operation) (polls : List (Except String Operation)),
       init.done = false → (∀ p ∈ polls, notDoneOk p = true) →
       pollLoop init polls = (iterEvents polls.length, none)) ∧
    (∀ (init last : Operation) (pre : List Operation)
       (rest : List (Except String Operation)),
       init.done = false → (∀ o ∈ pre, o.done = false) → last.done = true →
       pollLoop init (pre.map Except.ok ++ Except.ok last :: rest) =
         (iterEvents (pre.length + 1), some (Except.ok last))) ∧
    (∀ (init op' : Operation) (polls : List (Except String Operation)),
       (pollLoop init polls).2 = some (Except.ok op') → op'.done = true) ∧
    (∀ (env : Env) (st : AppState) (op : Operation),
       ¬ (jsTrim st.prompt = "" ∨ st.isLoading = true) →
       env.submitResult = Except.ok op →
       (pollLoop op env.polls).2 = none →
       (handleGenerateVideo env st).2 = none) := by
  refine ⟨fun init polls h => pollLoop_done init polls h,
          fun init polls h1 h2 => pollLoop_all_not_done polls init h1 h2,
          fun init last pre rest h1 h2 h3 => pollLoop_first_done last rest pre init h1 h2 h3,
          fun init op' polls h => pollLoop_ok_done op' init polls h,
          ?_⟩
  intro env st op hg hs hp
  have hcore : (generateCore env (buildPayload (clearedState st))).2 = none := by
    unfold generateCore
    simp [hs, hp]
  unfold handleGenerateVideo
  rw [if_neg hg]
  simp [hcore]

/-- Witness for C5: a not-done initial handle followed by one not-done and one
done poll response terminates after exactly two delay-and-poll iterations. -/
theorem C5_poll_loop_unbounded_witness :
    opNotDone.done = false ∧ opDone.done = true ∧
    pollLoop opNotDone [Except.ok opNotDone, Except.ok opDone] =
      (iterEvents 2, some (Except.ok opDone)) := by
  refine ⟨rfl, rfl, ?_⟩
  have h := C5_poll_loop_unbounded.2.2.1 opNotDone opDone [opNotDone] [] rfl
    (by intro o ho; rw [List.mem_singleton] at ho; subst ho; rfl) rfl
  simpa using h

theorem fetchFailMsg_ne_empty (s : String) : fetchFailMsg s ≠ "" := by
  intro h
  have hlen := congrArg String.length h
  rw [fetchFailMsg, String.length_append] at hlen
  have h28 : ("Failed to fetch video data: ").length = 28 := by decide
  have h0 : ("" : String).length = 0 := rfl
  rw [h28, h0] at hlen
  omega

/-- Claim C2: when submission succeeds and the poll loop ends with a done
response that carries no video URI, the run ends in the failed state with the
no-download-link message, produces no video handle, clears the busy flag, and
attempts no media fetch. -/
theorem C2_no_link_failure (env : Env) (st : AppState) (initOp finalOp : Operation)
    (hg : ¬ (jsTrim st.prompt = "" ∨ st.isLoading = true))
    (hs : env.submitResult = Except.ok initOp)
    (hp : (pollLoop initOp env.polls).2 = some (Except.ok finalOp))
    (hl : downloadLinkOf finalOp = none) :
    ∃ evs st', handleGenerateVideo env st = (evs, some st') ∧
      st'.error = some noLinkMsg ∧
      st'.generatedVideoUrl = none ∧
      st'.isLoading = false ∧
      countFetch evs = 0 := by
  have h1 : ¬ (noLinkMsg = "") := by decide
  have h2 : strContains noLinkMsg notFoundSub = false := by decide
  have hcore : generateCore env (buildPayload (clearedState st)) =
      (Event.submitCall (buildPayload (clearedState st)) :: (pollLoop initOp env.polls).1,
       some (Except.error noLinkMsg)) := by
    unfold generateCore
    simp [hs, hp, hl]
  refine ⟨Event.submitCall (buildPayload (clearedState st)) :: (pollLoop initOp env.polls).1,
          { applyCatch (clearedState st) noLinkMsg with isLoading := false },
          ?_, ?_, ?_, rfl, ?_⟩
  · unfold handleGenerateVideo
    rw [if_neg hg]
    simp [hcore]
  · simp [applyCatch, h1, h2]
  · simp [applyCatch, h1, h2, clearedState]
  · simp [countFetch, List.filter_cons, isFetchEv, (pollLoop_filter initOp env.polls).2.1]

def envNoLink : Env :=
  { apiKey := "", submitResult := Except.ok opDone, polls := [],
    fetchResult := Except.error "" }

/-- Witness for C2: a submission whose initial response is already done but
holds no response object at all. -/
theorem C2_no_link_failure_witness :
    (¬ (jsTrim initialState.prompt = "" ∨ initialState.isLoading = true)) ∧
    envNoLink.submitResult = Except.ok opDone ∧
    (pollLoop opDone envNoLink.polls).2 = some (Except.ok opDone) ∧
    downloadLinkOf opDone = none ∧
    (∃ evs st', handleGenerateVideo envNoLink initialState = (evs, some st') ∧
      st'.error = some noLinkMsg ∧
      st'.generatedVideoUrl = none ∧
      st'.isLoading = false ∧
      countFetch evs = 0) :=
  ⟨by decide, rfl, by decide, by decide,
   C2_no_link_failure envNoLink initialState opDone opDone (by decide) rfl
     (by decide) (by decide)⟩

/-- Claim C6: whenever any stage of a generation attempt raises an error, the
attempt ends in a final state that surfaces exactly one error message, the
busy flag is cleared, no video handle is produced, and no stage is retried:
the trace carries exactly one submission call and at most one media fetch. -/
theorem C6_error_terminal (env : Env) (st : AppState) (e : String)
    (hg : ¬ (jsTrim st.prompt = "" ∨ st.isLoading = true))
    (hc : (generateCore env (buildPayload (clearedState st))).2 = some (Except.error e)) :
    ∃ evs st', handleGenerateVideo env st = (evs, some st') ∧
      (∃ m, st'.error = some m) ∧
      st'.isLoading = false ∧
      st'.generatedVideoUrl = none ∧
      countSubmit evs = 1 ∧
      countFetch evs ≤ 1 := by
  obtain ⟨c1, c2, _⟩ := generateCore_shape env (buildPayload (clearedState st))
  refine ⟨(generateCore env (buildPayload (clearedState st))).1,
          { applyCatch (clearedState st) e with isLoading := false },
          ?_, ?_, rfl, ?_, c1, c2⟩
  · unfold handleGenerateVideo
    rw [if_neg hg]
    simp [hc]
  · unfold applyCatch
    by_cases hm : strContains (if e = "" then unknownErrMsg else e) notFoundSub = true
    · exact ⟨credInvalidMsg, by simp [hm]⟩
    · exact ⟨if e = "" then unknownErrMsg else e, by simp [hm]⟩
  · unfold applyCatch
    by_cases hm : strContains (if e = "" then unknownErrMsg else e) notFoundSub = true <;>
      simp [hm, clearedState]

def envBoom : Env :=
  { apiKey := "", submitResult := Except.error "kaboom", polls := [],
    fetchResult := Except.error "" }

/-- Witness for C6 at a concrete failing submission. -/
theorem C6_error_terminal_witness :
    (¬ (jsTrim initialState.prompt = "" ∨ initialState.isLoading = true)) ∧
    (generateCore envBoom (buildPayload (clearedState initialState))).2 =
      some (Except.error "kaboom") ∧
    (∃ evs st', handleGenerateVideo envBoom initialState = (evs, some st') ∧
      (∃ m, st'.error = some m) ∧
      st'.isLoading = false ∧
      st'.generatedVideoUrl = none ∧
      countSubmit evs = 1 ∧
      countFetch evs ≤ 1) :=
  ⟨by decide, by decide,
   C6_error_terminal envBoom initialState "kaboom" (by decide) (by decide)⟩

def envEmptyErr : Env :=
  { apiKey := "", submitResult := Except.error "", polls := [],
    fetchResult := Except.error "" }

/-- Counterexample to C3 as stated: an error whose message is empty does not
match the entity-not-found substring, yet the surfaced message is the generic
unknown-error text rather than the raw (empty) message. -/
theorem C3_counterexample :
    ((handleGenerateVideo envEmptyErr initialState).2.map AppState.error) =
      some (some unknownErrMsg) ∧
    strContains "" notFoundSub = false ∧
    unknownErrMsg ≠ "" := by
  refine ⟨by decide, by decide, by decide⟩

/-- Claim C3 (amended): an error whose message contains the entity-not-found
substring is surfaced as the credential-invalid message and drops the cached
credential flag; any other error with a nonempty message is surfaced raw with
the flag unchanged; an error with an empty message is surfaced as the generic
unknown-error text with the flag unchanged. -/
theorem C3_error_message_remap (env : Env) (st : AppState) (e : String)
    (hg : ¬ (jsTrim st.prompt = "" ∨ st.isLoading = true))
    (hc : (generateCore env (buildPayload (clearedState st))).2 = some (Except.error e)) :
    ∃ evs st', handleGenerateVideo env st = (evs, some st') ∧
      (strContains e notFoundSub = true →
        st'.error = some credInvalidMsg ∧ st'.hasApiKey = false) ∧
      (strContains e notFoundSub = false → e ≠ "" →
        st'.error = some e ∧ st'.hasApiKey = st.hasApiKey) ∧
      (e = "" →
        st'.error = some unknownErrMsg ∧ st'.hasApiKey = st.hasApiKey) := by
  refine ⟨(generateCore env (buildPayload (clearedState st))).1,
          { applyCatch (clearedState st) e with isLoading := false },
          ?_, ?_, ?_, ?_⟩
  · unfold handleGenerateVideo
    rw [if_neg hg]
    simp [hc]
  · intro hcon
    have hne : ¬ (e = "") := by
      intro h
      rw [h] at hcon
      have : strContains "" notFoundSub = false := by decide
      rw [this] at hcon
      exact Bool.false_ne_true hcon
    unfold applyCatch
    simp [hne, hcon]
  · intro hcon hne
    unfold applyCatch
    simp [hne, hcon, clearedState]
  · intro h
    subst h
    have hcon : strContains unknownErrMsg notFoundSub = false := by decide
    unfold applyCatch
    simp [hcon, clearedState]

def envNotFound : Env :=
  { apiKey := "", submitResult := Except.error notFoundSub, polls := [],
    fetchResult := Except.error "" }

/-- Witness for C3 at a concrete run raising the entity-not-found message. -/
theorem C3_error_message_remap_witness :
    (¬ (jsTrim initialState.prompt = "" ∨ initialState.isLoading = true)) ∧
    (generateCore envNotFound (buildPayload (clearedState initialState))).2 =
      some (Except.error notFoundSub) ∧
    (∃ evs st', handleGenerateVideo envNotFound initialState = (evs, some st') ∧
      (strContains notFoundSub notFoundSub = true →
        st'.error = some credInvalidMsg ∧ st'.hasApiKey = false) ∧
      (strContains notFoundSub notFoundSub = false → notFoundSub ≠ "" →
        st'.error = some notFoundSub ∧ st'.hasApiKey = initialState.hasApiKey) ∧
      (notFoundSub = "" →
        st'.error = some unknownErrMsg ∧ st'.hasApiKey = initialState.hasApiKey)) :=
  ⟨by decide, by decide,
   C3_error_message_remap envNotFound initialState notFoundSub (by decide) (by decide)⟩

/-- Claim C4 (amended): a media fetch answered with a non-success status ends
the run in the failed state with no video handle; the surfaced message is the
fetch-failure text carrying the status message, except when that text contains
the entity-not-found substring, in which case the credential-invalid message
is surfaced instead. -/
theorem C4_fetch_failure (env : Env) (st : AppState) (initOp finalOp : Operation)
    (uri : String) (r : FetchResponse)
    (hg : ¬ (jsTrim st.prompt = "" ∨ st.isLoading = true))
    (hs : env.submitResult = Except.ok initOp)
    (hp : (pollLoop initOp env.polls).2 = some (Except.ok finalOp))
    (hl : downloadLinkOf finalOp = some uri) (hu : uri ≠ "")
    (hf : env.fetchResult = Except.ok r) (hok : r.ok = false)
    (hm : strContains (fetchFailMsg r.statusText) notFoundSub = false) :
    ∃ evs st', handleGenerateVideo env st = (evs, some st') ∧
      st'.error = some (fetchFailMsg r.statusText) ∧
      st'.generatedVideoUrl = none ∧
      st'.isLoading = false := by
  have hne : ¬ (fetchFailMsg r.statusText = "") := fetchFailMsg_ne_empty r.statusText
  have hcore : generateCore env (buildPayload (clearedState st)) =
      (Event.submitCall (buildPayload (clearedState st)) :: (pollLoop initOp env.polls).1 ++
         [Event.fetchCall (uri ++ "&key=" ++ env.apiKey)],
       some (Except.error (fetchFailMsg r.statusText))) := by
    unfold generateCore
    simp [hs, hp, hl, hu, hf, hok]
  refine ⟨Event.submitCall (buildPayload (clearedState st)) :: (pollLoop initOp env.polls).1 ++
            [Event.fetchCall (uri ++ "&key=" ++ env.apiKey)],
          { applyCatch (clearedState st) (fetchFailMsg r.statusText) with isLoading := false },
          ?_, ?_, ?_, rfl⟩
  · unfold handleGenerateVideo
    rw [if_neg hg]
    simp [hcore]
  · unfold applyCatch
    simp [hne, hm]
  · unfold applyCatch
    simp [hne, hm, clearedState]

def opDoneUri : Operation :=
  { done := true, response := some [{ video := some { uri := some "http://v" } }] }

def envC4 : Env :=
  { apiKey := "k", submitResult := Except.ok opDoneUri, polls := [],
    fetchResult := Except.ok { ok := false, statusText := notFoundSub, blobUrl := "" } }

/-- Counterexample to C4 as stated: a failed media fetch whose status message
is the entity-not-found text is surfaced as the credential-invalid message,
which does not carry that status message. -/
theorem C4_counterexample :
    ((handleGenerateVideo envC4 initialState).2.map AppState.error) =
      some (some credInvalidMsg) ∧
    strContains credInvalidMsg notFoundSub = false := by
  refine ⟨by decide, by decide⟩

def respNotFoundStatus : FetchResponse :=
  { ok := false, statusText := "Not Found", blobUrl := "" }

def envC4w : Env :=
  { apiKey := "k", submitResult := Except.ok opDoneUri, polls := [],
    fetchResult := Except.ok respNotFoundStatus }

/-- Witness for C4 at a concrete 404-style fetch failure. -/
theorem C4_fetch_failure_witness :
    (¬ (jsTrim initialState.prompt = "" ∨ initialState.isLoading = true)) ∧
    envC4w.submitResult = Except.ok opDoneUri ∧
    (pollLoop opDoneUri envC4w.polls).2 = some (Except.ok opDoneUri) ∧
    downloadLinkOf opDoneUri = some "http://v" ∧
    "http://v" ≠ "" ∧
    envC4w.fetchResult = Except.ok respNotFoundStatus ∧
    respNotFoundStatus.ok = false ∧
    strContains (fetchFailMsg respNotFoundStatus.statusText) notFoundSub = false ∧
    (∃ evs st', handleGenerateVideo envC4w initialState = (evs, some st') ∧
      st'.error = some (fetchFailMsg respNotFoundStatus.statusText) ∧
      st'.generatedVideoUrl = none ∧
      st'.isLoading = false) :=
  ⟨by decide, rfl, by decide, by decide, by decide, rfl, rfl, by decide,
   C4_fetch_failure envC4w initialState opDoneUri opDoneUri "http://v" respNotFoundStatus
     (by decide) rfl (by decide) (by decide) (by decide) rfl rfl (by decide)⟩

/-- Claim C10: a submission clears both the error message and the video handle
before doing any work, and any final state of a generation attempt carries at
most one of the two, so failed-state data and succeeded-state data never
coexist. -/
theorem C10_error_video_exclusive (env : Env) (st : AppState) :
    ((clearedState st).error = none ∧ (clearedState st).generatedVideoUrl = none) ∧
    (∀ evs st', ¬ (jsTrim st.prompt = "" ∨ st.isLoading = true) →
      handleGenerateVideo env st = (evs, some st') →
      (st'.error = none ∨ st'.generatedVideoUrl = none)) := by
  refine ⟨⟨rfl, rfl⟩, ?_⟩
  intro evs st' hg hrun
  unfold handleGenerateVideo at hrun
  rw [if_neg hg] at hrun
  cases hc : (generateCore env (buildPayload (clearedState st))).2 with
  | none =>
    rw [hc] at hrun
    simp at hrun
  | some res =>
    cases res with
    | ok url =>
      rw [hc] at hrun
      simp only [Prod.mk.injEq, Option.some.injEq] at hrun
      obtain ⟨-, h2⟩ := hrun
      subst h2
      left
      rfl
    | error e =>
      rw [hc] at hrun
      simp only [Prod.mk.injEq, Option.some.injEq] at hrun
      obtain ⟨-, h2⟩ := hrun
      subst h2
      right
      unfold applyCatch
      by_cases hm : strContains (if e = "" then unknownErrMsg else e) notFoundSub = true <;>
        simp [hm, clearedState]

def envOk : Env :=
  { apiKey := "k", submitResult := Except.ok opDoneUri, polls := [],
    fetchResult := Except.ok { ok := true, statusText := "OK", blobUrl := "blob:v" } }

def evsOk : List Event :=
  [Event.submitCall (buildPayload (clearedState initialState)),
   Event.fetchCall ("http://v" ++ "&key=" ++ "k")]

def stOk : AppState :=
  { clearedState initialState with generatedVideoUrl := some "blob:v", isLoading := false }

/-- Witness for C10 on a concrete successful run. -/
theorem C10_error_video_exclusive_witness :
    (¬ (jsTrim initialState.prompt = "" ∨ initialState.isLoading = true)) ∧
    handleGenerateVideo envOk initialState = (evsOk, some stOk) ∧
    (stOk.error = none ∨ stOk.generatedVideoUrl = none) :=
  ⟨by decide, by decide,
   (C10_error_video_exclusive envOk initialState).2 evsOk stOk (by decide) (by decide)⟩

/-- Claim C8 (amended): the credential-presence boundary query is made once at
startup (when the ambient credential API exists), and a generation attempt —
failed or otherwise — never performs it: its trace contains no credential
query; the failure path instead resets the cached flag directly in the
credential-invalid branch. -/
theorem C8_apikey_check_startup_only (q : Except String Bool) (env : Env) (st : AppState) :
    (mount (some q)).1 = [Event.apiKeyQuery] ∧
    ((handleGenerateVideo env st).1.filter isApiKeyQuery) = [] := by
  constructor
  · cases q <;> rfl
  · unfold handleGenerateVideo
    by_cases hg : jsTrim st.prompt = "" ∨ st.isLoading = true
    · rw [if_pos hg]
      rfl
    · rw [if_neg hg]
      have h3 := (generateCore_shape env (buildPayload (clearedState st))).2.2
      cases hc : (generateCore env (buildPayload (clearedState st))).2 with
      | none => simp [hc, h3]
      | some res =>
        cases res with
        | ok url => simp [hc, h3]
        | error e => simp [hc, h3]

/-- Counterexample to C8 as stated: a concrete failed generation attempt (the
error "kaboom" is surfaced) whose trace is nonempty yet contains no
credential-presence query, so the check is not performed after a failed
attempt. -/
theorem C8_counterexample :
    ((handleGenerateVideo envBoom initialState).2.map AppState.error) =
      some (some "kaboom") ∧
    ((handleGenerateVideo envBoom initialState).1.filter isApiKeyQuery) = [] ∧
    (handleGenerateVideo envBoom initialState).1 ≠ [] := by
  refine ⟨by decide, by decide, by decide⟩

/-- Claim C9: removing the reference image revokes the preview object URL
whenever a truthy (non-null, non-empty — object URLs are never empty) preview
URL is present and clears all three image fields to null; when no preview URL
exists, no release call is made and the fields are still cleared. -/
theorem C9_remove_image_release (st : AppState) :
    (∀ u, st.referenceImage.previewUrl = some u → u ≠ "" →
      removeImage st = ([Event.revoke u],
        { st with referenceImage := { file := none, previewUrl := none, base64 := none } })) ∧
    (st.referenceImage.previewUrl = none →
      removeImage st = ([],
        { st with referenceImage := { file := none, previewUrl := none, base64 := none } })) := by
  constructor
  · intro u hu hne
    unfold removeImage
    rw [hu]
    simp [hne]
  · intro hu
    unfold removeImage
    rw [hu]

def png10 : FileData :=
  { mimeType := "image/png", bytes := [137, 80, 78, 71, 13, 10, 26, 10, 0, 0] }

def stWithImage : AppState :=
  { initialState with referenceImage :=
      { file := some png10, previewUrl := some "blob:u", base64 := some "x" } }

/-- Witness for C9 at a concrete state holding a reference image. -/
theorem C9_remove_image_release_witness :
    stWithImage.referenceImage.previewUrl = some "blob:u" ∧ "blob:u" ≠ "" ∧
    removeImage stWithImage = ([Event.revoke "blob:u"],
      { stWithImage with referenceImage :=
          { file := none, previewUrl := none, base64 := none } }) :=
  ⟨rfl, by decide, (C9_remove_image_release stWithImage).1 "blob:u" rfl (by decide)⟩

theorem b64Char_ne_comma (n : Nat) : b64Char n ≠ ',' := by
  intro h
  have hmem : b64Char n ∈ base64Alphabet ∨ b64Char n = 'A' := by
    unfold b64Char
    rw [List.getD_eq_getElem?_getD]
    cases hq : base64Alphabet[n]? with
    | none => right; simp
    | some c =>
      left
      simp only [Option.getD_some]
      exact List.getElem?_mem hq
  rcases hmem with hm | hm
  · rw [h] at hm
    exact absurd hm (by decide)
  · rw [h] at hm
    exact absurd hm (by decide)

theorem notmem_b64cons {l : List Char} {n : Nat} (hl : (',' : Char) ∉ l) :
    (',' : Char) ∉ b64Char n :: l := by
  intro h
  rcases List.mem_cons.mp h with h | h
  · exact b64Char_ne_comma n h.symm
  · exact hl h

theorem base64_no_comma (bytes : List Nat) : (',' : Char) ∉ base64Encode bytes := by
  induction bytes using base64Encode.induct with
  | case1 => simp [base64Encode]
  | case2 a =>
    simp only [base64Encode]
    exact notmem_b64cons (notmem_b64cons (by decide))
  | case3 a b =>
    simp only [base64Encode]
    exact notmem_b64cons (notmem_b64cons (notmem_b64cons (by decide)))
  | case4 a b c rest ih =>
    simp only [base64Encode]
    exact notmem_b64cons (notmem_b64cons (notmem_b64cons (notmem_b64cons ih)))

theorem base64Encode_ne_nil (bytes : List Nat) (h : bytes ≠ []) :
    base64Encode bytes ≠ [] := by
  rcases bytes with _ | ⟨a, _ | ⟨b, _ | ⟨c, rest⟩⟩⟩
  · exact absurd rfl h
  · simp [base64Encode]
  · simp [base64Encode]
  · simp [base64Encode]

theorem splitComma_no_comma (l : List Char) (h : (',' : Char) ∉ l) :
    splitComma l = [l] := by
  induction l with
  | nil => rfl
  | cons c t ih =>
    have hc : ¬ (c = ',') := fun hc => h (hc ▸ List.mem_cons_self c t)
    have ht : (',' : Char) ∉ t := fun hmem => h (List.mem_cons_of_mem c hmem)
    unfold splitComma
    rw [if_neg hc, ih ht]

theorem splitComma_append (a b : List Char) (ha : (',' : Char) ∉ a)
    (hb : (',' : Char) ∉ b) : splitComma (a ++ ',' :: b) = [a, b] := by
  induction a with
  | nil =>
    simp only [List.nil_append]
    unfold splitComma
    rw [if_pos rfl, splitComma_no_comma b hb]
  | cons c t ih =>
    have hc : ¬ (c = ',') := fun hc => ha (hc ▸ List.mem_cons_self c t)
    have ht : (',' : Char) ∉ t := fun hmem => ha (List.mem_cons_of_mem c hmem)
    simp only [List.cons_append]
    unfold splitComma
    rw [if_neg hc, ih ht]

theorem fileToBase64_eq (f : FileData) (hm : (',' : Char) ∉ f.mimeType.data) :
    fileToBase64 f = some (String.mk (base64Encode f.bytes)) := by
  have hcomma : (";base64,".data : List Char) = ";base64".data ++ [','] := by decide
  have hre : dataUrlChars f =
      ("data:".data ++ f.mimeType.data ++ ";base64".data) ++ ',' :: base64Encode f.bytes := by
    unfold dataUrlChars
    rw [hcomma]
    simp [List.append_assoc]
  have hsplit : splitComma (dataUrlChars f) =
      ["data:".data ++ f.mimeType.data ++ ";base64".data, base64Encode f.bytes] := by
    rw [hre]
    apply splitComma_append
    · intro hmem
      rcases List.mem_append.mp hmem with hmem | hmem
      · rcases List.mem_append.mp hmem with hmem | hmem
        · exact absurd hmem (by decide)
        · exact hm hmem
      · exact absurd hmem (by decide)
    · exact base64_no_comma f.bytes
  unfold fileToBase64 readAsDataURL
  rw [show (String.mk (dataUrlChars f)).data = dataUrlChars f from rfl, hsplit]
  rfl

theorem generateCore_starts_submit (env : Env) (p : Payload) :
    ∃ rest, (generateCore env p).1 = Event.submitCall p :: rest := by
  unfold generateCore
  cases hs : env.submitResult with
  | error e => exact ⟨[], rfl⟩
  | ok op =>
    cases hp : (pollLoop op env.polls).2 with
    | none => exact ⟨(pollLoop op env.polls).1, by simp [hp]⟩
    | some res =>
      cases res with
      | error e => exact ⟨(pollLoop op env.polls).1, by simp [hp]⟩
      | ok finalOp =>
        cases hd : downloadLinkOf finalOp with
        | none => exact ⟨(pollLoop op env.polls).1, by simp [hp, hd]⟩
        | some uri =>
          by_cases hu : uri = ""
          · exact ⟨(pollLoop op env.polls).1, by simp [hp, hd, hu]⟩
          · cases hf : env.fetchResult with
            | error e =>
              exact ⟨(pollLoop op env.polls).1 ++
                [Event.fetchCall (uri ++ "&key=" ++ env.apiKey)], by simp [hp, hd, hu, hf]⟩
            | ok r =>
              by_cases hr : r.ok = true
              · exact ⟨(pollLoop op env.polls).1 ++
                  [Event.fetchCall (uri ++ "&key=" ++ env.apiKey)], by simp [hp, hd, hu, hf, hr]⟩
              · exact ⟨(pollLoop op env.polls).1 ++
                  [Event.fetchCall (uri ++ "&key=" ++ env.apiKey)], by simp [hp, hd, hu, hf, hr]⟩

/-- Claim C7 (amended): after attaching a reference image with nonempty
content (and a comma-free MIME type, which every MIME type is), the payload
carries an image field whose imageBytes is the base64 transform of the file's
bytes — the portion of the data URL after the comma — and whose mimeType is
the file's MIME type; a submission without a reference image carries no image
field; and the payload placed in the submit call is exactly `buildPayload` of
the submitting state. -/
theorem C7_image_payload (env : Env) (st : AppState) (f : FileData) (url : String)
    (hb : f.bytes ≠ []) (hm : (',' : Char) ∉ f.mimeType.data) :
    ((buildPayload ((handleImageChange (some f) url st).2)).image =
      some { imageBytes := String.mk (base64Encode f.bytes), mimeType := f.mimeType }) ∧
    (st.referenceImage = { file := none, previewUrl := none, base64 := none } →
      (buildPayload st).image = none) ∧
    (¬ (jsTrim st.prompt = "" ∨ st.isLoading = true) →
      ∃ rest, (handleGenerateVideo env st).1 =
        Event.submitCall (buildPayload (clearedState st)) :: rest ∧
        buildPayload (clearedState st) = buildPayload st) := by
  refine ⟨?_, ?_, ?_⟩
  · have hb64 : fileToBase64 f = some (String.mk (base64Encode f.bytes)) :=
      fileToBase64_eq f hm
    have hne : ¬ (String.mk (base64Encode f.bytes) = "") := by
      intro h
      have hdata := congrArg String.data h
      simp only at hdata
      exact base64Encode_ne_nil f.bytes hb hdata
    have hstate : (handleImageChange (some f) url st).2 =
        { st with referenceImage :=
            { file := some f, previewUrl := some url, base64 := fileToBase64 f } } := rfl
    rw [hstate]
    unfold buildPayload
    simp [hb64, hne]
  · intro h
    simp [buildPayload, h]
  · intro hg
    obtain ⟨rest, hrest⟩ := generateCore_starts_submit env (buildPayload (clearedState st))
    refine ⟨rest, ?_, rfl⟩
    unfold handleGenerateVideo
    rw [if_neg hg]
    cases hc : (generateCore env (buildPayload (clearedState st))).2 with
    | none => simpa [hc] using hrest
    | some res =>
      cases res with
      | ok u => simpa [hc] using hrest
      | error e => simpa [hc] using hrest

def emptyPng : FileData := { mimeType := "image/png", bytes := [] }

/-- Counterexample to C7 as stated: attaching a reference image with empty
content stores an empty base64 string, which the truthiness test of line 143
rejects, so the submitted payload carries no image field although a reference
image is attached. -/
theorem C7_counterexample :
    ((handleImageChange (some emptyPng) "blob:p" initialState).2).referenceImage.file =
      some emptyPng ∧
    ((handleImageChange (some emptyPng) "blob:p" initialState).2).referenceImage.base64 =
      some "" ∧
    (buildPayload ((handleImageChange (some emptyPng) "blob:p" initialState).2)).image =
      none := by
  refine ⟨by decide, by decide, by decide⟩

/-- Witness for C7 with the spec's example, a 10-byte PNG. -/
theorem C7_image_payload_witness :
    png10.bytes ≠ [] ∧ ((',' : Char) ∉ png10.mimeType.data) ∧
    (buildPayload ((handleImageChange (some png10) "blob:p" initialState).2)).image =
      some { imageBytes := String.mk (base64Encode png10.bytes),
             mimeType := png10.mimeType } :=
  ⟨by decide, by decide,
   (C7_image_payload envA initialState png10 "blob:p" (by decide) (by decide)).1⟩
